import Mathlib

/-
  Shallow embedding of the network-monitor repository's probing,
  alerting and scheduling core (src/monitor.py, src/alert_system.py,
  src/ping_checker.py, src/port_checker.py), with theorems settling
  the spec's claims about it.

  Machine time (time.time(), datetime deltas) is modelled as ℚ;
  network and subprocess effects are modelled as explicit outcome
  parameters fed to the embedded functions.
-/

namespace NetMon

/-- Exceptions that probe internals can raise, as discriminated by the
try/except blocks of the source. All of them derive from Python's
Exception, so a bare except Exception clause catches every one. -/
inductive Exn where
  | timeout_expired
  | connection_refused
  | dns_failure (msg : String)
  | os_error (msg : String)
  | other (msg : String)
deriving DecidableEq, Repr

/-- Outcome of running an external ping subprocess: either it completes
with a return code after some elapsed time (milliseconds), or it raises. -/
inductive SubprocessOutcome where
  | completes (returncode : Int) (elapsed_ms : ℚ)
  | raises (e : Exn)
deriving DecidableEq, Repr

/-- Outcome of socket.connect_ex in monitor.check_port: connect_ex reports
failures through its integer error code (0 = connected) rather than by
raising, but the surrounding code can still raise (e.g. DNS resolution). -/
inductive ConnectOutcome where
  | connect_ex (errno : Int) (elapsed_ms : ℚ)
  | raises (e : Exn)
deriving DecidableEq, Repr

/-- First-match association-list lookup, the dict read used for alert
history and the port table. -/
def lookup_assoc {α β : Type} [DecidableEq α] : List (α × β) → α → Option β
  | [], _ => none
  | (k, v) :: rest, key => if k = key then some v else lookup_assoc rest key

end NetMon

namespace AlertSystem

open NetMon

/-- src/alert_system.py line 22: self.cooldown_period = 300. -/
def cooldown_period : ℚ := 300

/-- Alert history maps the textual alert key to the last-emitted time
(time.time()); src/alert_system.py line 21 / 45. -/
abbrev AlertHistory := List (String × ℚ)

/-- src/alert_system.py line 37: the cooldown key string built from
(alert_type, service_name, host, port); a missing port prints as None. -/
def alert_key (alert_type service_name host : String) (port : Option Nat) : String :=
  alert_type ++ "_" ++ service_name ++ "_" ++ host ++ "_" ++
    (match port with
     | some p => toString p
     | none => "None")

/-- src/alert_system.py lines 66-71: AlertSystem._is_in_cooldown. -/
def is_in_cooldown (history : AlertHistory) (key : String) (current_time : ℚ) : Bool :=
  match lookup_assoc history key with
  | some t => decide (current_time - t < cooldown_period)
  | none => false

/-- src/alert_system.py lines 24-64: AlertSystem.send_alert, reduced to its
state effect: it builds the cooldown key from (alert_type, service_name,
host, port), returns early (suppressed, state unchanged) when the key is
in cooldown, and otherwise records current_time for the key and runs the
notification paths (admitted). Consing the key overwrites any older entry
for the same key for lookup purposes, matching dict assignment. -/
def send_alert (history : AlertHistory) (alert_type service_name host : String)
    (port : Option Nat) (current_time : ℚ) : Bool × AlertHistory :=
  let k := alert_key alert_type service_name host port
  if is_in_cooldown history k current_time then (false, history)
  else (true, (k, current_time) :: history)

end AlertSystem

namespace NetworkMonitor

open NetMon

/-- src/monitor.py lines 196-214: NetworkMonitor.ping_host. On a completed
subprocess run, success is returncode == 0 and the reported response time
is the elapsed wall-clock time if successful, the number 0 otherwise; any
raised exception (subprocess.TimeoutExpired or any other Exception) is
caught and reported as (host, False, 0). -/
def ping_host (host : String) (o : SubprocessOutcome) : String × Bool × ℚ :=
  match o with
  | .completes rc elapsed => (host, rc == 0, if rc == 0 then elapsed else 0)
  | .raises _ => (host, false, 0)

/-- src/monitor.py lines 196-214 with the exception flow made explicit:
the body may raise, the except (subprocess.TimeoutExpired, Exception)
clause catches every exception and converts it to data. -/
def ping_host_body (host : String) (o : SubprocessOutcome) :
    Except Exn (String × Bool × ℚ) :=
  match o with
  | .completes rc elapsed => .ok (host, rc == 0, if rc == 0 then elapsed else 0)
  | .raises e => .error e

/-- The whole of NetworkMonitor.ping_host including its handler: whatever
the body raises is caught and returned as a failure triple. -/
def ping_host_run (host : String) (o : SubprocessOutcome) :
    Except Exn (String × Bool × ℚ) :=
  match ping_host_body host o with
  | .ok r => .ok r
  | .error _ => .ok (host, false, 0)

/-- src/monitor.py lines 216-232: NetworkMonitor.check_port. connect_ex
reports connection failure through a nonzero error code; success carries
the elapsed time, failure carries the number 0; any raised exception is
caught and reported as (host, port, False, 0). -/
def check_port (host : String) (port : Nat) (o : ConnectOutcome) :
    String × Nat × Bool × ℚ :=
  match o with
  | .connect_ex errno elapsed => (host, port, errno == 0, if errno == 0 then elapsed else 0)
  | .raises _ => (host, port, false, 0)

/-- One entry of the default_ports dict literal of src/monitor.py
lines 21-134, in source order, duplicates included (8080 and 3000 occur
twice; a Python dict literal keeps the first position and the last value). -/
def default_ports_entries : List (Nat × String) :=
  [(80, "HTTP"), (443, "HTTPS"), (8080, "HTTP Alt"), (8443, "HTTPS Alt"),
   (3000, "Development Server"), (3001, "React Dev"), (4200, "Angular Dev"), (5173, "Vite Dev"),
   (3306, "MySQL"), (5432, "PostgreSQL"), (27017, "MongoDB"), (6379, "Redis"),
   (1433, "SQL Server"), (1521, "Oracle"),
   (25, "SMTP"), (110, "POP3"), (143, "IMAP"), (465, "SMTP SSL"), (587, "SMTP TLS"),
   (993, "IMAP SSL"), (995, "POP3 SSL"),
   (21, "FTP"), (22, "SSH/SFTP"), (23, "Telnet"), (69, "TFTP"), (135, "RPC"),
   (139, "NetBIOS"), (445, "SMB"), (548, "AFP"), (2049, "NFS"),
   (3389, "RDP"), (5900, "VNC"), (5901, "VNC Alt"), (5902, "VNC Alt2"), (4899, "Radmin"),
   (8000, "Python Dev"), (8001, "Python Alt"), (5000, "Flask Default"), (5001, "Flask Alt"),
   (9000, "Development"), (9001, "Development Alt"), (7000, "Development"), (6000, "Development"),
   (4000, "Development"),
   (25565, "Minecraft"), (7777, "Gaming"), (27015, "Steam"), (1935, "RTMP"),
   (53, "DNS"), (67, "DHCP Server"), (68, "DHCP Client"), (161, "SNMP"),
   (162, "SNMP Trap"), (514, "Syslog"),
   (8096, "Jellyfin"), (32400, "Plex"), (5050, "Couchpotato"), (8989, "Sonarr"), (7878, "Radarr"),
   (902, "VMware"), (903, "VMware SSL"), (8006, "Proxmox"),
   (6667, "IRC"), (5222, "XMPP"), (1863, "MSN"),
   (873, "Rsync"), (2222, "SSH Alt"),
   (631, "IPP"), (515, "LPR"), (9100, "HP JetDirect"),
   (1883, "MQTT"), (8883, "MQTT SSL"), (8123, "Home Assistant"),
   (2375, "Docker"), (2376, "Docker SSL"), (8080, "Jenkins"), (9090, "Prometheus"),
   (3000, "Grafana"),
   (1194, "OpenVPN"), (500, "IPSec"), (4500, "IPSec NAT")]

/-- Insertion into an association list with Python dict-literal semantics:
an existing key keeps its position but takes the new value; a new key is
appended. -/
def dict_insert (d : List (Nat × String)) (k : Nat) (v : String) : List (Nat × String) :=
  if d.any (fun p => p.1 == k) then
    d.map (fun p => if p.1 == k then (k, v) else p)
  else d ++ [(k, v)]

/-- The default_ports dict of src/monitor.py lines 21-134 as Python builds
it from the literal entries. -/
def default_ports : List (Nat × String) :=
  default_ports_entries.foldl (fun d p => dict_insert d p.1 p.2) []

/-- list(self.default_ports.keys()). -/
def default_ports_keys : List Nat := default_ports.map (fun p => p.1)

/-- self.default_ports.get(port, default) as used at src/monitor.py
line 257. -/
def default_ports_get (port : Nat) : String :=
  match lookup_assoc default_ports port with
  | some s => s
  | none => "Port " ++ toString port

end NetworkMonitor

namespace NetworkMonitor

open NetMon

/-- The ping sub-dict of a host result: {status, response_time}. -/
structure PingData where
  status : Bool
  response_time : ℚ
deriving DecidableEq, Repr

/-- One entry of the ports sub-dict of a host result:
{status, response_time, service}. -/
structure PortData where
  status : Bool
  response_time : ℚ
  service : String
deriving DecidableEq, Repr

/-- The per-host result dict built by scan_host_ports
(src/monitor.py lines 239-244): host, timestamp, ping, ports. -/
structure HostData where
  host : String
  timestamp : ℚ
  ping : PingData
  ports : List (Nat × PortData)
deriving DecidableEq, Repr

/-- src/monitor.py lines 234-264: NetworkMonitor.scan_host_ports. The
ports argument defaults to the default_ports keys when None is passed;
port checks run only when the ping succeeded or the host is literally
127.0.0.1 or localhost, otherwise the ports mapping stays empty. When
that guard passes, line 252 constructs
ThreadPoolExecutor(max_workers=self.config["max_workers"]), whose
constructor raises ValueError when max_workers is 0 — scan_host_ports
has no handler, so that raise escapes the call. The network is modelled
by one subprocess outcome for the ping and one connect outcome per
port. -/
def scan_host_ports (host : String) (ports_arg : Option (List Nat)) (max_workers : Nat)
    (now : ℚ) (ping_env : SubprocessOutcome) (port_env : Nat → ConnectOutcome) :
    Except String HostData :=
  let ports := ports_arg.getD default_ports_keys
  let pr := ping_host host ping_env
  let ping_status := pr.2.1
  let ping_time := pr.2.2
  if ping_status || host == "127.0.0.1" || host == "localhost" then
    if max_workers = 0 then
      .error "ValueError: max_workers must be greater than 0"
    else
      .ok { host := host, timestamp := now,
            ping := { status := ping_status, response_time := ping_time },
            ports := ports.map (fun p =>
              let c := check_port host p (port_env p)
              (p, { status := c.2.2.1, response_time := c.2.2.2,
                    service := default_ports_get p })) }
  else
    .ok { host := host, timestamp := now,
          ping := { status := ping_status, response_time := ping_time },
          ports := [] }

/-- One alert dict as built by check_alerts (src/monitor.py
lines 303-321): type, host, optional port and service, message,
timestamp. -/
structure Alert where
  type : String
  host : String
  port : Option Nat
  service : Option String
  message : String
  timestamp : ℚ
deriving DecidableEq, Repr

/-- The alerts contributed by one host entry inside the loop of
check_alerts (src/monitor.py lines 300-321): a ping_down alert whenever
the current ping status is down, then a port_down alert for every port
whose current status is down. No previous snapshot is consulted. -/
def host_alerts (current_time : ℚ) (hd : HostData) : List Alert :=
  (if hd.ping.status then []
   else [{ type := "ping_down", host := hd.host, port := none, service := none,
           message := "Host " ++ hd.host ++ " is not responding to ping",
           timestamp := current_time }])
  ++ hd.ports.filterMap (fun pp =>
      if pp.2.status then none
      else some { type := "port_down", host := hd.host, port := some pp.1,
                  service := some pp.2.service,
                  message := "Service " ++ pp.2.service ++ " on " ++ hd.host ++ ":"
                    ++ toString pp.1 ++ " is down",
                  timestamp := current_time })

/-- src/monitor.py lines 292-333: the alert-generation step of
NetworkMonitor.check_alerts. Returns the list of alerts it raises for a
scan result; its only inputs are the alerts-enabled flag, the current
time and the current scan's host results — no previous snapshot exists
in its signature. -/
def check_alerts (alerts_enabled : Bool) (current_time : ℚ)
    (hosts : List HostData) : List Alert :=
  if alerts_enabled then hosts.flatMap (host_alerts current_time) else []

/-- One entry of a config file's hosts list: either a bare string or a
dict with an optional address and an optional enabled flag
(src/monitor.py lines 167-178). -/
inductive HostEntry where
  | as_string (s : String)
  | as_dict (address : Option String) (enabled : Option Bool)
deriving DecidableEq, Repr

/-- The keys of a config.json file that load_config reads; a missing key
is None. The alerts subtree is reduced to its enabled flag. -/
structure ConfigFile where
  hosts : Option (List HostEntry)
  ports : Option (List Nat)
  ping_timeout : Option ℚ
  port_timeout : Option ℚ
  check_interval : Option ℚ
  max_workers : Option Nat
  alerts_enabled : Option Bool
deriving DecidableEq, Repr

/-- The merged configuration dict after load_config: every key present. -/
structure Config where
  hosts : List String
  ports : List Nat
  ping_timeout : ℚ
  port_timeout : ℚ
  check_interval : ℚ
  max_workers : Nat
  alerts_enabled : Bool
deriving DecidableEq, Repr

/-- Host normalization of src/monitor.py lines 168-178: a dict entry
contributes its address when the address is present and the enabled flag
(default True) is set; a string entry contributes itself; other dict
entries are dropped. -/
def normalize_hosts : List HostEntry → List String
  | [] => []
  | .as_string s :: rest => s :: normalize_hosts rest
  | .as_dict addr en :: rest =>
      match addr, en.getD true with
      | some a, true => a :: normalize_hosts rest
      | _, _ => normalize_hosts rest

/-- The default_config dict of src/monitor.py lines 138-156. Its ports
entry is list(self.default_ports.keys()) only if the default_ports
attribute already exists on the instance, and the empty list otherwise;
the flag records whether it does. -/
def default_config (has_default_ports : Bool) : Config :=
  { hosts := ["127.0.0.1", "8.8.8.8", "1.1.1.1"],
    ports := if has_default_ports then default_ports_keys else [],
    ping_timeout := 3, port_timeout := 5, check_interval := 60,
    max_workers := 50, alerts_enabled := true }

/-- src/monitor.py lines 136-182: NetworkMonitor.load_config. A missing
file (FileNotFoundError) yields default_config unchanged; an existing
file is merged with default_config key by key, and its hosts value, when
present, is normalized. -/
def load_config (has_default_ports : Bool) (file : Option ConfigFile) : Config :=
  let d := default_config has_default_ports
  match file with
  | none => d
  | some f =>
      { hosts := match f.hosts with
                 | some hs => normalize_hosts hs
                 | none => d.hosts,
        ports := f.ports.getD d.ports,
        ping_timeout := f.ping_timeout.getD d.ping_timeout,
        port_timeout := f.port_timeout.getD d.port_timeout,
        check_interval := f.check_interval.getD d.check_interval,
        max_workers := f.max_workers.getD d.max_workers,
        alerts_enabled := f.alerts_enabled.getD d.alerts_enabled }

/-- The config a NetworkMonitor instance holds after __init__
(src/monitor.py lines 13-21): load_config runs on line 14, before the
default_ports attribute is assigned on line 21, so hasattr(self,
'default_ports') is False throughout that call. -/
def init_config (file : Option ConfigFile) : Config :=
  load_config false file

/-- The scan_results dict of perform_full_scan: timestamp plus one host
result per configured host. -/
structure ScanResult where
  timestamp : ℚ
  hosts : List (String × HostData)
deriving DecidableEq, Repr

/-- The result-collection loop of perform_full_scan (src/monitor.py
lines 275-284): one scan_host_ports call per configured host, keyed by
the host. future.result() re-raises anything a host scan raised, and
perform_full_scan has no handler, so the first failing host aborts the
collection (the source surfaces whichever failing future completes
first; every such failure carries the same ValueError). -/
def collect_host_scans (ports : List Nat) (max_workers : Nat) (now : ℚ)
    (ping_env : String → SubprocessOutcome)
    (port_env : String → Nat → ConnectOutcome) :
    List String → Except String (List (String × HostData))
  | [] => .ok []
  | h :: hs => do
      let hd ← scan_host_ports h (some ports) max_workers now (ping_env h) (port_env h)
      let rest ← collect_host_scans ports max_workers now ping_env port_env hs
      pure ((h, hd) :: rest)

/-- src/monitor.py lines 266-290: NetworkMonitor.perform_full_scan. It
opens ThreadPoolExecutor(max_workers=len(config.hosts)); the executor
constructor raises ValueError when max_workers is not positive, so an
empty host list makes the whole call raise. Otherwise one
scan_host_ports result per host is collected, and any ValueError a host
scan raises (from its own inner executor) propagates out. The ports
argument is self.config.get with a default that never fires, because
load_config always fills the ports key. -/
def perform_full_scan (cfg : Config) (now : ℚ)
    (ping_env : String → SubprocessOutcome)
    (port_env : String → Nat → ConnectOutcome) :
    Except String ScanResult :=
  if cfg.hosts.length = 0 then
    .error "ValueError: max_workers must be greater than 0"
  else do
    let hosts ← collect_host_scans cfg.ports cfg.max_workers now ping_env port_env cfg.hosts
    pure { timestamp := now, hosts := hosts }

/-- The cross-call state that start_monitoring and stop_monitoring
touch: the monitoring_active flag and how many monitor_loop threads have
been spawned so far (src/monitor.py lines 345-365). -/
structure MonitorState where
  monitoring_active : Bool
  threads_started : Nat
deriving DecidableEq, Repr

/-- src/monitor.py lines 345-360: NetworkMonitor.start_monitoring sets
monitoring_active and unconditionally creates and starts a fresh
monitor_loop thread — there is no already-running check. -/
def start_monitoring (s : MonitorState) : MonitorState :=
  { monitoring_active := true, threads_started := s.threads_started + 1 }

/-- src/monitor.py lines 362-365: NetworkMonitor.stop_monitoring clears
monitoring_active and nothing else. -/
def stop_monitoring (s : MonitorState) : MonitorState :=
  { s with monitoring_active := false }

/-- The sleep the monitor_loop body performs after a successful cycle
(src/monitor.py line 354): time.sleep(check_interval), a constant that
ignores how long the scan took. -/
def loop_sleep (check_interval _elapsed : ℚ) : ℚ := check_interval

/-- The moment the next cycle begins on the success path of
monitor_loop: the cycle started at start_time, the scan took elapsed,
then the loop sleeps loop_sleep. -/
def next_cycle_start (check_interval start_time elapsed : ℚ) : ℚ :=
  start_time + elapsed + loop_sleep check_interval elapsed

/-- The start time of the cycle reached after running one cycle per
listed duration, starting from start_time. -/
def cycle_start (check_interval start_time : ℚ) : List ℚ → ℚ
  | [] => start_time
  | d :: ds => cycle_start check_interval (next_cycle_start check_interval start_time d) ds

/-- The sleep policy the spec claims: sleep only until check_interval
has elapsed since the cycle started, so a slow cycle shortens but never
negates the wait. Stated from the spec sentence for comparison with
loop_sleep. -/
def claimed_loop_sleep (check_interval elapsed : ℚ) : ℚ :=
  max (check_interval - elapsed) 0

end NetworkMonitor

namespace PingChecker

open NetMon

/-- Outcome of the ping3 library call in PingChecker.ping_host: it
returns a round-trip time, or None, or raises. -/
inductive Ping3Outcome where
  | responds (ms : ℚ)
  | no_reply
  | raises (e : Exn)
deriving DecidableEq, Repr

/-- src/ping_checker.py lines 37-73: PingChecker._subprocess_ping. A
zero return code yields (True, elapsed); a nonzero return code, an
asyncio timeout, or any other exception yields (False, None). -/
def subprocess_ping (o : SubprocessOutcome) : Bool × Option ℚ :=
  match o with
  | .completes rc elapsed => if rc == 0 then (true, some elapsed) else (false, none)
  | .raises _ => (false, none)

/-- src/ping_checker.py lines 18-35: PingChecker.ping_host. A ping3
response succeeds with its latency; a None response falls back to
_subprocess_ping; any exception is caught and yields (False, None). -/
def ping_host (o : Ping3Outcome) (so : SubprocessOutcome) : Bool × Option ℚ :=
  match o with
  | .responds ms => (true, some ms)
  | .no_reply => subprocess_ping so
  | .raises _ => (false, none)

/-- PingChecker.ping_host with the exception flow made explicit: the
body may raise (from ping3 or from the fallback subprocess), and the
outer except Exception clause of lines 33-35 catches everything. -/
def ping_host_body (o : Ping3Outcome) (so : SubprocessOutcome) :
    Except Exn (Bool × Option ℚ) :=
  match o with
  | .responds ms => .ok (true, some ms)
  | .no_reply =>
      match so with
      | .completes rc elapsed =>
          .ok (if rc == 0 then (true, some elapsed) else (false, none))
      | .raises e => .error e
  | .raises e => .error e

/-- The whole of PingChecker.ping_host including its handlers: the
fallback's own except clauses and the outer except Exception together
convert every raise into (False, None). -/
def ping_host_run (o : Ping3Outcome) (so : SubprocessOutcome) :
    Except Exn (Bool × Option ℚ) :=
  match ping_host_body o so with
  | .ok r => .ok r
  | .error _ => .ok (false, none)

end PingChecker

namespace PortChecker

open NetMon

/-- Outcome of the awaited socket connect in PortChecker.check_tcp_port:
either the connection completes within the timeout, or something raises
(socket.timeout, asyncio.TimeoutError, ConnectionRefusedError, OSError,
or any other exception). -/
inductive TcpConnectOutcome where
  | connects (elapsed_ms : ℚ)
  | raises (e : Exn)
deriving DecidableEq, Repr

/-- src/port_checker.py lines 14-46: PortChecker.check_tcp_port. A
completed connect yields (True, elapsed); both except clauses — the
transport-error tuple and the catch-all Exception — yield (False, None). -/
def check_tcp_port (o : TcpConnectOutcome) : Bool × Option ℚ :=
  match o with
  | .connects elapsed => (true, some elapsed)
  | .raises _ => (false, none)

/-- PortChecker.check_tcp_port with the exception flow made explicit. -/
def check_tcp_port_body (o : TcpConnectOutcome) : Except Exn (Bool × Option ℚ) :=
  match o with
  | .connects elapsed => .ok (true, some elapsed)
  | .raises e => .error e

/-- The whole of PortChecker.check_tcp_port including its two except
clauses: every raise is converted to (False, None). -/
def check_tcp_port_run (o : TcpConnectOutcome) : Except Exn (Bool × Option ℚ) :=
  match check_tcp_port_body o with
  | .ok r => .ok r
  | .error _ => .ok (false, none)

end PortChecker

open NetMon

set_option maxRecDepth 10000

/-- C2: cooldown gating of AlertSystem.send_alert. For two calls with the
same (alert_type, service_name, host, port) key where the first call at
time t1 is admitted, the admitted call records t1 as the last-emitted
time for the key; a second call at time t2 less than cooldown_period
(300 seconds) after t1 is suppressed with the history left unchanged,
while a second call more than cooldown_period after t1 is admitted. -/
theorem send_alert_cooldown_gate (history : AlertSystem.AlertHistory)
    (alert_type service_name host : String) (port : Option Nat) (t1 t2 : ℚ)
    (hadm : (AlertSystem.send_alert history alert_type service_name host port t1).1 = true) :
    lookup_assoc (AlertSystem.send_alert history alert_type service_name host port t1).2
        (AlertSystem.alert_key alert_type service_name host port) = some t1
    ∧ (t2 - t1 < AlertSystem.cooldown_period →
        AlertSystem.send_alert
            (AlertSystem.send_alert history alert_type service_name host port t1).2
            alert_type service_name host port t2
          = (false, (AlertSystem.send_alert history alert_type service_name host port t1).2))
    ∧ (AlertSystem.cooldown_period < t2 - t1 →
        (AlertSystem.send_alert
            (AlertSystem.send_alert history alert_type service_name host port t1).2
            alert_type service_name host port t2).1 = true) := by
  have hcool : AlertSystem.is_in_cooldown history
      (AlertSystem.alert_key alert_type service_name host port) t1 = false := by
    by_cases hc : AlertSystem.is_in_cooldown history
        (AlertSystem.alert_key alert_type service_name host port) t1
    · simp [AlertSystem.send_alert, hc] at hadm
    · simpa using hc
  have hstep : (AlertSystem.send_alert history alert_type service_name host port t1).2
      = (AlertSystem.alert_key alert_type service_name host port, t1) :: history := by
    simp [AlertSystem.send_alert, hcool]
  refine ⟨?_, ?_, ?_⟩
  · rw [hstep]; simp [lookup_assoc]
  · intro hlt
    rw [hstep]
    simp [AlertSystem.send_alert, AlertSystem.is_in_cooldown, lookup_assoc, hlt]
  · intro hgt
    have hnlt : ¬ (t2 - t1 < AlertSystem.cooldown_period) := not_lt.mpr (le_of_lt hgt)
    rw [hstep]
    simp [AlertSystem.send_alert, AlertSystem.is_in_cooldown, lookup_assoc, hnlt]

/-- Witness for C2: concrete run of the cooldown gate from an empty
history, first call at time 0, second call at time 400. -/
theorem send_alert_cooldown_gate_witness :
    lookup_assoc (AlertSystem.send_alert [] "host_down" "server" "10.0.0.2" none 0).2
        (AlertSystem.alert_key "host_down" "server" "10.0.0.2" none) = some 0
    ∧ ((400 : ℚ) - 0 < AlertSystem.cooldown_period →
        AlertSystem.send_alert
            (AlertSystem.send_alert [] "host_down" "server" "10.0.0.2" none 0).2
            "host_down" "server" "10.0.0.2" none 400
          = (false, (AlertSystem.send_alert [] "host_down" "server" "10.0.0.2" none 0).2))
    ∧ (AlertSystem.cooldown_period < (400 : ℚ) - 0 →
        (AlertSystem.send_alert
            (AlertSystem.send_alert [] "host_down" "server" "10.0.0.2" none 0).2
            "host_down" "server" "10.0.0.2" none 400).1 = true) :=
  send_alert_cooldown_gate [] "host_down" "server" "10.0.0.2" none 0 400 rfl

/-- C5: every probe converts transport-level failures into data. The
embedded bodies of NetworkMonitor.ping_host, PingChecker.ping_host and
PortChecker.check_tcp_port, run under their own except clauses, always
return a value (never propagate an exception), and every raising outcome
yields the failure result of the respective handler. -/
theorem probe_failures_return_data :
    (∀ (host : String) (o : SubprocessOutcome),
        ∃ r, NetworkMonitor.ping_host_run host o = .ok r)
    ∧ (∀ (o : PingChecker.Ping3Outcome) (so : SubprocessOutcome),
        ∃ r, PingChecker.ping_host_run o so = .ok r)
    ∧ (∀ (o : PortChecker.TcpConnectOutcome),
        ∃ r, PortChecker.check_tcp_port_run o = .ok r)
    ∧ (∀ (host : String) (e : Exn),
        NetworkMonitor.ping_host_run host (.raises e) = .ok (host, false, 0))
    ∧ (∀ (e : Exn) (so : SubprocessOutcome),
        PingChecker.ping_host_run (.raises e) so = .ok (false, none))
    ∧ (∀ (e : Exn),
        PortChecker.check_tcp_port_run (.raises e) = .ok (false, none)) := by
  refine ⟨?_, ?_, ?_, ?_, ?_, ?_⟩
  · intro host o; cases o <;> exact ⟨_, rfl⟩
  · intro o so; cases o <;> first
      | exact ⟨_, rfl⟩
      | (cases so <;> exact ⟨_, rfl⟩)
  · intro o; cases o <;> exact ⟨_, rfl⟩
  · intro host e; rfl
  · intro e so; rfl
  · intro e; rfl

/-- C9: when the ping of a host fails and the host is neither 127.0.0.1
nor localhost, scan_host_ports completes normally (the guard skips the
inner executor, so not even a zero max_workers can make it raise) with
an empty ports mapping, and its result does not depend on the
port-probe environment at all — no port check is performed for that
host in that cycle. -/
theorem scan_host_ports_unreachable_host_skips_ports (host : String)
    (ports_arg : Option (List Nat)) (max_workers : Nat) (now : ℚ)
    (ping_env : SubprocessOutcome) (port_env port_env2 : Nat → ConnectOutcome)
    (hdown : (NetworkMonitor.ping_host host ping_env).2.1 = false)
    (h1 : host ≠ "127.0.0.1") (h2 : host ≠ "localhost") :
    NetworkMonitor.scan_host_ports host ports_arg max_workers now ping_env port_env
      = .ok { host := host, timestamp := now,
              ping := { status := false,
                        response_time := (NetworkMonitor.ping_host host ping_env).2.2 },
              ports := [] }
    ∧ NetworkMonitor.scan_host_ports host ports_arg max_workers now ping_env port_env
        = NetworkMonitor.scan_host_ports host ports_arg max_workers now ping_env port_env2 := by
  constructor
  · simp [NetworkMonitor.scan_host_ports, hdown, h1, h2]
  · simp [NetworkMonitor.scan_host_ports, hdown, h1, h2]

/-- Witness for C9: host 8.8.8.8 with a timed-out ping, a zero
max_workers, and two port environments that differ everywhere. -/
theorem scan_host_ports_unreachable_host_skips_ports_witness :
    NetworkMonitor.scan_host_ports "8.8.8.8" (some [22, 80]) 0 0
        (.raises .timeout_expired) (fun _ => .raises .connection_refused)
      = .ok { host := "8.8.8.8", timestamp := 0,
              ping := { status := false,
                        response_time :=
                          (NetworkMonitor.ping_host "8.8.8.8" (.raises .timeout_expired)).2.2 },
              ports := [] }
    ∧ NetworkMonitor.scan_host_ports "8.8.8.8" (some [22, 80]) 0 0
        (.raises .timeout_expired) (fun _ => .raises .connection_refused)
      = NetworkMonitor.scan_host_ports "8.8.8.8" (some [22, 80]) 0 0
          (.raises .timeout_expired) (fun _ => .connect_ex 0 1) :=
  scan_host_ports_unreachable_host_skips_ports "8.8.8.8" (some [22, 80]) 0 0
    (.raises .timeout_expired) (fun _ => .raises .connection_refused)
    (fun _ => .connect_ex 0 1) rfl (by decide) (by decide)

/-- Counterexample for C1: a host that has never been observed before
(there is no previous snapshot at all — check_alerts does not even
receive one) is down in the current scan, and check_alerts emits a
ping_down alert for it. The claim that no alert is produced for a
target's first-ever observation is therefore false for this code. -/
theorem check_alerts_fires_on_first_observation :
    NetworkMonitor.check_alerts true 0
      [{ host := "8.8.8.8", timestamp := 0,
         ping := { status := false, response_time := 0 }, ports := [] }]
      = [{ type := "ping_down", host := "8.8.8.8", port := none, service := none,
           message := "Host 8.8.8.8 is not responding to ping", timestamp := 0 }] := rfl

/-- A host entry whose ping is up and whose ports are all up contributes
no alert. -/
theorem host_alerts_eq_nil_of_all_up (now : ℚ) (hd : NetworkMonitor.HostData)
    (hping : hd.ping.status = true)
    (hports : ∀ pp ∈ hd.ports, pp.2.status = true) :
    NetworkMonitor.host_alerts now hd = [] := by
  simp only [NetworkMonitor.host_alerts, hping, if_true, List.nil_append]
  rw [List.filterMap_eq_nil_iff]
  intro pp hpp
  simp [hports pp hpp]

/-- With alerts enabled, check_alerts is the concatenation of the
per-host alert lists. -/
theorem check_alerts_unfold (now : ℚ) (hosts : List NetworkMonitor.HostData) :
    NetworkMonitor.check_alerts true now hosts
      = hosts.flatMap (NetworkMonitor.host_alerts now) := by
  simp [NetworkMonitor.check_alerts]

/-- C1 (amended): check_alerts performs no transition detection — it is a
function of the current scan only. It emits a ping_down alert for every
host whose current ping status is down and a port_down alert for every
port observed down, on every scan including a target's first
observation, and it emits no alert at all when every ping and every
port of the current scan is up. -/
theorem check_alerts_fires_on_every_down_status (now : ℚ)
    (hosts : List NetworkMonitor.HostData) :
    (∀ hd ∈ hosts, hd.ping.status = false →
        ∃ a ∈ NetworkMonitor.check_alerts true now hosts,
          a.type = "ping_down" ∧ a.host = hd.host)
    ∧ (∀ hd ∈ hosts, ∀ pp ∈ hd.ports, pp.2.status = false →
        ∃ a ∈ NetworkMonitor.check_alerts true now hosts,
          a.type = "port_down" ∧ a.host = hd.host ∧ a.port = some pp.1)
    ∧ ((∀ hd ∈ hosts, hd.ping.status = true ∧ ∀ pp ∈ hd.ports, pp.2.status = true) →
        NetworkMonitor.check_alerts true now hosts = []) := by
  refine ⟨?_, ?_, ?_⟩
  · intro hd hmem hdown
    refine ⟨{ type := "ping_down", host := hd.host, port := none, service := none,
              message := "Host " ++ hd.host ++ " is not responding to ping",
              timestamp := now }, ?_, rfl, rfl⟩
    rw [check_alerts_unfold, List.mem_flatMap]
    exact ⟨hd, hmem, by simp [NetworkMonitor.host_alerts, hdown]⟩
  · intro hd hmem pp hpp hdown
    refine ⟨{ type := "port_down", host := hd.host, port := some pp.1,
              service := some pp.2.service,
              message := "Service " ++ pp.2.service ++ " on " ++ hd.host ++ ":"
                ++ toString pp.1 ++ " is down",
              timestamp := now }, ?_, rfl, rfl, rfl⟩
    rw [check_alerts_unfold, List.mem_flatMap]
    refine ⟨hd, hmem, ?_⟩
    simp only [NetworkMonitor.host_alerts]
    refine List.mem_append_right _ ?_
    exact List.mem_filterMap.mpr ⟨pp, hpp, by simp [hdown]⟩
  · intro hall
    rw [check_alerts_unfold, List.flatMap_eq_nil_iff]
    intro hd hmem
    exact host_alerts_eq_nil_of_all_up now hd (hall hd hmem).1 (hall hd hmem).2

/-- Witness for C1 (amended): a single-host scan with 8.8.8.8 down and
one down port (22, SSH/SFTP). -/
theorem check_alerts_fires_on_every_down_status_witness :
    (∀ hd ∈ [({ host := "8.8.8.8", timestamp := 0,
                ping := { status := false, response_time := 0 },
                ports := [(22, { status := false, response_time := 0,
                                 service := "SSH/SFTP" })] } :
                NetworkMonitor.HostData)],
        hd.ping.status = false →
        ∃ a ∈ NetworkMonitor.check_alerts true 0
            [{ host := "8.8.8.8", timestamp := 0,
               ping := { status := false, response_time := 0 },
               ports := [(22, { status := false, response_time := 0,
                                service := "SSH/SFTP" })] }],
          a.type = "ping_down" ∧ a.host = hd.host)
    ∧ (∀ hd ∈ [({ host := "8.8.8.8", timestamp := 0,
                  ping := { status := false, response_time := 0 },
                  ports := [(22, { status := false, response_time := 0,
                                   service := "SSH/SFTP" })] } :
                  NetworkMonitor.HostData)],
        ∀ pp ∈ hd.ports, pp.2.status = false →
        ∃ a ∈ NetworkMonitor.check_alerts true 0
            [{ host := "8.8.8.8", timestamp := 0,
               ping := { status := false, response_time := 0 },
               ports := [(22, { status := false, response_time := 0,
                                service := "SSH/SFTP" })] }],
          a.type = "port_down" ∧ a.host = hd.host ∧ a.port = some pp.1)
    ∧ ((∀ hd ∈ [({ host := "8.8.8.8", timestamp := 0,
                   ping := { status := false, response_time := 0 },
                   ports := [(22, { status := false, response_time := 0,
                                    service := "SSH/SFTP" })] } :
                   NetworkMonitor.HostData)],
          hd.ping.status = true ∧ ∀ pp ∈ hd.ports, pp.2.status = true) →
        NetworkMonitor.check_alerts true 0
            [{ host := "8.8.8.8", timestamp := 0,
               ping := { status := false, response_time := 0 },
               ports := [(22, { status := false, response_time := 0,
                                service := "SSH/SFTP" })] }] = []) :=
  check_alerts_fires_on_every_down_status 0
    [{ host := "8.8.8.8", timestamp := 0,
       ping := { status := false, response_time := 0 },
       ports := [(22, { status := false, response_time := 0,
                        service := "SSH/SFTP" })] }]

/-- Counterexample for C4: in src/monitor.py a failed probe carries the
numeric latency value 0, not an absent value: a timed-out ping, a
refused port connection and a nonzero ping exit code all report
response time 0. -/
theorem failed_probe_latency_zero_in_monitor :
    NetworkMonitor.ping_host "8.8.8.8" (.raises .timeout_expired) = ("8.8.8.8", false, 0)
    ∧ NetworkMonitor.check_port "8.8.8.8" 443 (.raises .connection_refused)
        = ("8.8.8.8", 443, false, 0)
    ∧ NetworkMonitor.ping_host "8.8.8.8" (.completes 1 250) = ("8.8.8.8", false, 0) :=
  ⟨rfl, rfl, rfl⟩

/-- C4 (amended): on failure, the probes of src/ping_checker.py and
src/port_checker.py carry no latency value (None), but the probes of
src/monitor.py (NetworkMonitor.ping_host and NetworkMonitor.check_port)
report the numeric latency 0, so only the former keep a down target
distinguishable from an instantaneous response. -/
theorem failed_probe_latency (host : String) (port : Nat) (o1 : SubprocessOutcome)
    (o2 : ConnectOutcome) (o3 : PingChecker.Ping3Outcome) (so : SubprocessOutcome)
    (o4 : PortChecker.TcpConnectOutcome) :
    ((NetworkMonitor.ping_host host o1).2.1 = false →
        (NetworkMonitor.ping_host host o1).2.2 = 0)
    ∧ ((NetworkMonitor.check_port host port o2).2.2.1 = false →
        (NetworkMonitor.check_port host port o2).2.2.2 = 0)
    ∧ ((PingChecker.ping_host o3 so).1 = false →
        (PingChecker.ping_host o3 so).2 = none)
    ∧ ((PortChecker.check_tcp_port o4).1 = false →
        (PortChecker.check_tcp_port o4).2 = none) := by
  refine ⟨?_, ?_, ?_, ?_⟩
  · cases o1 with
    | completes rc e =>
        intro h
        simp [NetworkMonitor.ping_host] at h ⊢
        simp [h]
    | raises e => intro _; rfl
  · cases o2 with
    | connect_ex errno e =>
        intro h
        simp [NetworkMonitor.check_port] at h ⊢
        simp [h]
    | raises e => intro _; rfl
  · cases o3 with
    | responds ms => intro h; simp [PingChecker.ping_host] at h
    | no_reply =>
        cases so with
        | completes rc e =>
            intro h
            simp only [PingChecker.ping_host, PingChecker.subprocess_ping] at h ⊢
            by_cases hrc : rc == 0
            · simp [hrc] at h
            · simp [hrc]
        | raises e => intro _; rfl
    | raises e => intro _; rfl
  · cases o4 with
    | connects e => intro h; simp [PortChecker.check_tcp_port] at h
    | raises e => intro _; rfl

/-- Witness for C4 (amended): one failing outcome for each probe. -/
theorem failed_probe_latency_witness :
    ((NetworkMonitor.ping_host "8.8.8.8" (.raises .timeout_expired)).2.1 = false →
        (NetworkMonitor.ping_host "8.8.8.8" (.raises .timeout_expired)).2.2 = 0)
    ∧ ((NetworkMonitor.check_port "8.8.8.8" 443 (.raises .connection_refused)).2.2.1 = false →
        (NetworkMonitor.check_port "8.8.8.8" 443 (.raises .connection_refused)).2.2.2 = 0)
    ∧ ((PingChecker.ping_host (.raises (.dns_failure "x")) (.raises .timeout_expired)).1 = false →
        (PingChecker.ping_host (.raises (.dns_failure "x")) (.raises .timeout_expired)).2 = none)
    ∧ ((PortChecker.check_tcp_port (.raises .connection_refused)).1 = false →
        (PortChecker.check_tcp_port (.raises .connection_refused)).2 = none) :=
  failed_probe_latency "8.8.8.8" 443 (.raises .timeout_expired) (.raises .connection_refused)
    (.raises (.dns_failure "x")) (.raises .timeout_expired) (.raises .connection_refused)

/-- Counterexample for C6: with check_interval 60 and a cycle that took
10, the loop sleeps the full 60 (not the 50 the claimed policy would
sleep), so the next cycle starts at 70, not at 60 = start + interval.
The loop does not sleep until the interval has elapsed since cycle
start. -/
theorem loop_sleeps_full_interval_after_cycle_end :
    NetworkMonitor.loop_sleep 60 10 = 60
    ∧ NetworkMonitor.claimed_loop_sleep 60 10 = 50
    ∧ NetworkMonitor.next_cycle_start 60 0 10 = 70
    ∧ NetworkMonitor.next_cycle_start 60 0 10 ≠ 0 + 60 := by
  refine ⟨rfl, ?_, ?_, ?_⟩ <;>
    norm_num [NetworkMonitor.claimed_loop_sleep, NetworkMonitor.next_cycle_start,
      NetworkMonitor.loop_sleep]

/-- C6 (amended): after each cycle the loop sleeps the full
check_interval measured from the end of the cycle, so after running
cycles of the listed durations the next cycle starts at the initial
start time plus the total scan time plus one interval per cycle — later
than the fixed-cadence schedule by the accumulated scan time, i.e. a
slow cycle delays all later cycles and drift compounds instead of being
absorbed. -/
theorem cycle_start_accumulates_drift (interval start_time : ℚ) (ds : List ℚ) :
    NetworkMonitor.cycle_start interval start_time ds
      = start_time + ds.sum + ds.length * interval := by
  induction ds generalizing start_time with
  | nil => simp [NetworkMonitor.cycle_start]
  | cons d t ih =>
      rw [NetworkMonitor.cycle_start, ih]
      simp only [NetworkMonitor.next_cycle_start, NetworkMonitor.loop_sleep,
        List.sum_cons, List.length_cons]
      push_cast
      ring

/-- Counterexample for C7: calling start_monitoring twice from the
stopped state is not a no-op — the second call changes the state again
by spawning another monitor loop thread. -/
theorem start_monitoring_twice_spawns_two_loops :
    NetworkMonitor.start_monitoring (NetworkMonitor.start_monitoring ⟨false, 0⟩)
      ≠ NetworkMonitor.start_monitoring ⟨false, 0⟩ := by decide

/-- C7 (amended): start_monitoring is not idempotent — every call sets
the active flag and spawns one more monitor loop thread, so two calls
spawn two loops; stop_monitoring only clears the flag, so stopping when
already stopped is a no-op and stopping is idempotent. -/
theorem start_spawns_thread_stop_idempotent (s : NetworkMonitor.MonitorState) :
    ((NetworkMonitor.start_monitoring s).monitoring_active = true
      ∧ (NetworkMonitor.start_monitoring s).threads_started = s.threads_started + 1
      ∧ (NetworkMonitor.start_monitoring (NetworkMonitor.start_monitoring s)).threads_started
          = s.threads_started + 2)
    ∧ (s.monitoring_active = false → NetworkMonitor.stop_monitoring s = s)
    ∧ NetworkMonitor.stop_monitoring (NetworkMonitor.stop_monitoring s)
        = NetworkMonitor.stop_monitoring s := by
  refine ⟨⟨rfl, rfl, rfl⟩, ?_, rfl⟩
  intro h
  cases s with
  | mk active threads => cases h; rfl

/-- Witness for C7 (amended): the freshly constructed stopped state. -/
theorem start_spawns_thread_stop_idempotent_witness :
    ((NetworkMonitor.start_monitoring ⟨false, 0⟩).monitoring_active = true
      ∧ (NetworkMonitor.start_monitoring ⟨false, 0⟩).threads_started
          = (⟨false, 0⟩ : NetworkMonitor.MonitorState).threads_started + 1
      ∧ (NetworkMonitor.start_monitoring
            (NetworkMonitor.start_monitoring ⟨false, 0⟩)).threads_started
          = (⟨false, 0⟩ : NetworkMonitor.MonitorState).threads_started + 2)
    ∧ ((⟨false, 0⟩ : NetworkMonitor.MonitorState).monitoring_active = false →
        NetworkMonitor.stop_monitoring ⟨false, 0⟩ = ⟨false, 0⟩)
    ∧ NetworkMonitor.stop_monitoring (NetworkMonitor.stop_monitoring ⟨false, 0⟩)
        = NetworkMonitor.stop_monitoring ⟨false, 0⟩ :=
  start_spawns_thread_stop_idempotent ⟨false, 0⟩

/-- Counterexample for C8: a full scan over the empty host list does not
complete normally with an empty result — it raises, because
perform_full_scan opens ThreadPoolExecutor with max_workers equal to the
number of hosts and the executor rejects max_workers = 0 with
ValueError. -/
theorem perform_full_scan_empty_hosts_raises :
    NetworkMonitor.perform_full_scan
      { hosts := [], ports := [], ping_timeout := 3, port_timeout := 5,
        check_interval := 60, max_workers := 50, alerts_enabled := true }
      0 (fun _ => .raises .timeout_expired) (fun _ _ => .raises .connection_refused)
      = .error "ValueError: max_workers must be greater than 0" := rfl

/-- With a positive max_workers, scan_host_ports never raises: the only
error path is the inner executor construction. -/
theorem scan_host_ports_ok_of_pos_workers (host : String)
    (ports_arg : Option (List Nat)) (max_workers : Nat) (now : ℚ)
    (ping_env : SubprocessOutcome) (port_env : Nat → ConnectOutcome)
    (hmw : max_workers ≠ 0) :
    ∃ hd, NetworkMonitor.scan_host_ports host ports_arg max_workers now ping_env port_env
      = .ok hd := by
  cases hg : ((NetworkMonitor.ping_host host ping_env).2.1 || host == "127.0.0.1"
      || host == "localhost") <;>
    simp [NetworkMonitor.scan_host_ports, hg, hmw]

/-- With a positive max_workers every host scan completes, so the
collection loop returns one entry per host, keyed by the host. -/
theorem collect_host_scans_ok_of_pos_workers (ports : List Nat) (max_workers : Nat)
    (now : ℚ) (ping_env : String → SubprocessOutcome)
    (port_env : String → Nat → ConnectOutcome) (hmw : max_workers ≠ 0)
    (hs : List String) :
    ∃ rs, NetworkMonitor.collect_host_scans ports max_workers now ping_env port_env hs
        = .ok rs
      ∧ rs.map (fun p => p.1) = hs := by
  induction hs with
  | nil => exact ⟨[], rfl, rfl⟩
  | cons h t ih =>
      obtain ⟨hd, hhd⟩ :=
        scan_host_ports_ok_of_pos_workers h (some ports) max_workers now
          (ping_env h) (port_env h) hmw
      obtain ⟨rs, hrs, hmap⟩ := ih
      refine ⟨(h, hd) :: rs, ?_, ?_⟩
      · simp only [NetworkMonitor.collect_host_scans, hhd, hrs]
        rfl
      · simp [hmap]

/-- C8 (amended): perform_full_scan raises ValueError on the empty host
list (the outer executor is sized by the number of hosts); on a
nonempty host list with a positive configured max_workers it completes
with one result entry per configured host. (With max_workers 0 a
nonempty scan can also raise, from the inner executor of a host whose
port-check guard passes.) -/
theorem perform_full_scan_empty_vs_nonempty (cfg : NetworkMonitor.Config) (now : ℚ)
    (ping_env : String → SubprocessOutcome)
    (port_env : String → Nat → ConnectOutcome) :
    (cfg.hosts = [] →
        NetworkMonitor.perform_full_scan cfg now ping_env port_env
          = .error "ValueError: max_workers must be greater than 0")
    ∧ (cfg.hosts ≠ [] → cfg.max_workers ≠ 0 →
        ∃ r, NetworkMonitor.perform_full_scan cfg now ping_env port_env = .ok r
          ∧ r.hosts.map (fun p => p.1) = cfg.hosts) := by
  constructor
  · intro h
    simp [NetworkMonitor.perform_full_scan, h]
  · intro h hmw
    have hlen : cfg.hosts.length ≠ 0 := by
      simpa [List.length_eq_zero] using h
    obtain ⟨rs, hrs, hmap⟩ :=
      collect_host_scans_ok_of_pos_workers cfg.ports cfg.max_workers now
        ping_env port_env hmw cfg.hosts
    refine ⟨{ timestamp := now, hosts := rs }, ?_, hmap⟩
    simp [NetworkMonitor.perform_full_scan, hlen, hrs]

/-- Witness for C8 (amended): a one-host configuration with the default
max_workers of 50. -/
theorem perform_full_scan_empty_vs_nonempty_witness :
    (([""] : List String) = [] →
        NetworkMonitor.perform_full_scan
          { hosts := [""], ports := [], ping_timeout := 3, port_timeout := 5,
            check_interval := 60, max_workers := 50, alerts_enabled := true }
          0 (fun _ => .raises .timeout_expired) (fun _ _ => .raises .connection_refused)
          = .error "ValueError: max_workers must be greater than 0")
    ∧ (([""] : List String) ≠ [] → (50 : Nat) ≠ 0 →
        ∃ r, NetworkMonitor.perform_full_scan
            { hosts := [""], ports := [], ping_timeout := 3, port_timeout := 5,
              check_interval := 60, max_workers := 50, alerts_enabled := true }
            0 (fun _ => .raises .timeout_expired)
            (fun _ _ => .raises .connection_refused) = .ok r
          ∧ r.hosts.map (fun p => p.1) = [""]) :=
  perform_full_scan_empty_vs_nonempty
    { hosts := [""], ports := [], ping_timeout := 3, port_timeout := 5,
      check_interval := 60, max_workers := 50, alerts_enabled := true }
    0 (fun _ => .raises .timeout_expired) (fun _ _ => .raises .connection_refused)

/-- Counterexample for C10: when no config file exists at all,
load_config (running during construction, before the default_ports
attribute exists) still produces an empty ports list — the built-in port
table, although nonempty, is not used, and a scan over that
configuration probes zero ports even on a reachable localhost. -/
theorem init_config_no_file_ignores_port_table :
    (NetworkMonitor.init_config none).ports = []
    ∧ NetworkMonitor.default_ports_keys ≠ []
    ∧ NetworkMonitor.scan_host_ports "127.0.0.1"
        (some (NetworkMonitor.init_config none).ports)
        (NetworkMonitor.init_config none).max_workers 0
        (.completes 0 1) (fun _ => .connect_ex 0 1)
      = .ok { host := "127.0.0.1", timestamp := 0,
              ping := { status := true, response_time := 1 }, ports := [] } := by
  refine ⟨rfl, by decide, rfl⟩

/-- C10 (amended): a configuration loaded during construction has an
empty ports list whenever the config file is missing OR exists without a
ports key (the default-ports table is not yet defined when load_config
runs, so the merged default is the empty list in both cases), and under
such a configuration every host scan that completes — for any
max_workers value and any probe environment — returns an empty ports
mapping, so every subsequent full scan probes zero ports on every host;
the built-in port table is never consulted for the ports list. -/
theorem init_config_ports_empty (file : Option NetworkMonitor.ConfigFile)
    (h : Option.bind file NetworkMonitor.ConfigFile.ports = none) :
    (NetworkMonitor.init_config file).ports = []
    ∧ ∀ (host : String) (max_workers : Nat) (now : ℚ)
        (ping_env : SubprocessOutcome) (port_env : Nat → ConnectOutcome)
        (hd : NetworkMonitor.HostData),
        NetworkMonitor.scan_host_ports host
            (some (NetworkMonitor.init_config file).ports) max_workers now
            ping_env port_env = .ok hd →
        hd.ports = [] := by
  have hports : (NetworkMonitor.init_config file).ports = [] := by
    cases file with
    | none =>
        simp [NetworkMonitor.init_config, NetworkMonitor.load_config,
          NetworkMonitor.default_config]
    | some f =>
        have hf : f.ports = none := by simpa [Option.bind] using h
        simp [NetworkMonitor.init_config, NetworkMonitor.load_config,
          NetworkMonitor.default_config, hf]
  refine ⟨hports, ?_⟩
  intro host max_workers now ping_env port_env hd hok
  rw [hports] at hok
  simp only [NetworkMonitor.scan_host_ports, Option.getD_some] at hok
  split at hok
  · split at hok
    · cases hok
    · cases hok
      rfl
  · cases hok
    rfl

/-- Witness for C10 (amended): the missing-config-file case. -/
theorem init_config_ports_empty_witness :
    (NetworkMonitor.init_config none).ports = []
    ∧ ∀ (host : String) (max_workers : Nat) (now : ℚ)
        (ping_env : SubprocessOutcome) (port_env : Nat → ConnectOutcome)
        (hd : NetworkMonitor.HostData),
        NetworkMonitor.scan_host_ports host
            (some (NetworkMonitor.init_config none).ports) max_workers now
            ping_env port_env = .ok hd →
        hd.ports = [] :=
  init_config_ports_empty none rfl
